import Mathlib

/-!
# rTrack frontend: shallow embedding and verification

This file embeds the logic of the rTrack frontend (a Next.js client for an
attendance/compliance backend) in Lean 4 and proves, or refutes, a set of
claims about it.  The embedding follows the TypeScript source:

* `lib/admin-cache.ts` — the module-level admin-status cache with a 5-minute
  TTL (`getCachedAdminStatus`, `setCachedAdminStatus`, `clearAdminStatusCache`).
* `lib/auth.ts` — JWT decoding without verification (`decodeToken`,
  `isTokenExpired`, `isAuthenticated`); browser primitives (`atob`,
  `decodeURIComponent`, `JSON.parse`, string-to-number coercion) are
  parameters of a `TokenEnv` structure since they are not repository code.
* `lib/api.ts` — `ApiClient.request`'s response handling: 2xx success,
  the 401 branch (logout + redirect to `/login` + fixed message), and the
  generic non-2xx branch (`detail` field or `HTTP <status>`), and
  `ApiClient.logout`.
* `components/admin-route.tsx` — both `AdminRoute` variants' render
  functions and the shared admin-check effect.
* `components/exception-dialog.tsx` — the name-generation effect and
  `handleSubmit` validation.
* `app/attendance/page.tsx` — `handleFileChange` / `handleDrop` extension
  validation.
* the compliance page's `fetchExceptionOptions` and the employees page's
  `fetchAllEmployees` page-fetch loops.

Time is modelled as an integer count of milliseconds (`Date.now()`), the
browser `localStorage` token slot as an `Option String`, and mutable module
state by explicit state passing.
-/

namespace RTrack

/-! ## JSON values and JavaScript truthiness -/

/-- JSON values as produced by `JSON.parse` / `response.json()`.
Numbers are modelled as integers (all numeric fields the client inspects,
such as `exp` and HTTP statuses, are integral). -/
inductive Json where
  | null : Json
  | bool (b : Bool) : Json
  | num (n : Int) : Json
  | str (s : String) : Json
  | arr (xs : List Json) : Json
  | obj (fields : List (String × Json)) : Json

/-- JavaScript truthiness test, negated: `!v` is `true` exactly on falsy
values (`null`, `false`, `0`, `""`); arrays and objects are always truthy. -/
def jsFalsy : Json → Bool
  | .null => true
  | .bool b => !b
  | .num n => n == 0
  | .str s => s == ""
  | .arr _ => false
  | .obj _ => false

/-- JavaScript property access `j.k`: defined only on objects; on duplicate
keys the last binding wins (as after `JSON.parse`); `none` models
`undefined`. -/
def getProp : Json → String → Option Json
  | .obj fs, k => fs.foldl (fun acc p => if p.1 = k then some p.2 else acc) none
  | _, _ => none

mutual
/-- JavaScript `String(v)` conversion, used when a non-2xx error body's
`detail` value is placed in an `Error` message. -/
def jsString : Json → String
  | .null => "null"
  | .bool b => if b then "true" else "false"
  | .num n => toString n
  | .str s => s
  | .arr xs => String.intercalate "," (jsStringList xs)
  | .obj _ => "[object Object]"

/-- `jsString` mapped over a list (arrays stringify as `join(",")`). -/
def jsStringList : List Json → List String
  | [] => []
  | x :: xs => jsString x :: jsStringList xs
end

/-! ## `lib/admin-cache.ts` — module-level admin-status cache

The module variable `adminStatusCache : {isAdmin, timestamp} | null` is the
state; `Date.now()` is an explicit `now : Int` argument. -/

/-- The cache state: `none` when cleared, otherwise the stored
`isAdmin` flag paired with the `Date.now()` timestamp of the store. -/
def AdminCache : Type := Option (Bool × Int)

/-- `CACHE_DURATION = 5 * 60 * 1000` (five minutes of milliseconds). -/
def CACHE_DURATION : Int := 5 * 60 * 1000

/-- `setCachedAdminStatus(isAdmin)`: overwrite the cache with the flag and
the current timestamp. -/
def setCachedAdminStatus (isAdmin : Bool) (now : Int) : AdminCache :=
  some (isAdmin, now)

/-- `clearAdminStatusCache()`: reset the cache to `null`. -/
def clearAdminStatusCache : AdminCache := none

/-- `getCachedAdminStatus()`: `null` when the cache is empty; when the
entry is older than `CACHE_DURATION` the cache is reset and `null` is
returned; otherwise the stored flag is returned.  The result pairs the
returned value with the cache state after the call. -/
def getCachedAdminStatus (now : Int) : AdminCache → Option Bool × AdminCache
  | none => (none, none)
  | some (isAdmin, ts) =>
    if now - ts > CACHE_DURATION then (none, none)
    else (some isAdmin, some (isAdmin, ts))

/-! ## `lib/auth.ts` — token utilities

`decodeToken` calls four browser/runtime primitives that are not
repository code: `atob`, `decodeURIComponent`, `JSON.parse`, and (inside
`isTokenExpired`'s multiplication) JavaScript's ToNumber coercion for
non-number values.  They are fields of `TokenEnv`; `none` models a thrown
exception (respectively a `NaN` result for `coerceNum`). -/

/-- Environment of browser primitives used by the token utilities. -/
structure TokenEnv where
  atob : String → Option String
  decodeURIComponent : String → Option String
  parseJson : String → Option Json
  coerceNum : Json → Option Int

/-- Lowercase hexadecimal rendering of a natural number,
`c.charCodeAt(0).toString(16)`. -/
def toHexLower (n : Nat) : String :=
  String.mk (Nat.toDigits 16 n)

/-- JavaScript `s.slice(-2)`: the last two characters (the whole string
when it is shorter). -/
def sliceLastTwo (s : String) : String :=
  s.drop (s.length - 2)

/-- One step of the percent-encoding map in `decodeToken`:
`'%' + ('00' + c.charCodeAt(0).toString(16)).slice(-2)`. -/
def percentEncodeChar (c : Char) : String :=
  "%" ++ sliceLastTwo ("00" ++ toHexLower c.toNat)

/-- The full `.split('').map(...).join('')` pipeline applied to the
`atob` output. -/
def percentEncode (s : String) : String :=
  String.join (s.toList.map percentEncodeChar)

/-- JavaScript `s.split(sep)` for a one-character separator. -/
def jsSplitChar (s : String) (sep : Char) : List String :=
  (s.toList.splitOn sep).map List.asString

/-- JavaScript `s.replace(/a/g, b)` for one-character pattern and
replacement. -/
def jsReplaceChar (s : String) (a b : Char) : String :=
  (s.toList.map (fun c => if c = a then b else c)).asString

/-- `decodeToken(token)`: split on `'.'`, take part 1 (when absent the
subsequent `.replace` throws, caught as `null`), map base64url to base64,
`atob`, percent-encode, `decodeURIComponent`, `JSON.parse`; any failure
yields `null` (`none`). -/
def decodeToken (env : TokenEnv) (token : String) : Option Json :=
  match (jsSplitChar token '.')[1]? with
  | none => none
  | some base64Url =>
    let base64 := jsReplaceChar (jsReplaceChar base64Url '-' '+') '_' '/'
    match env.atob base64 with
    | none => none
    | some bin =>
      match env.decodeURIComponent (percentEncode bin) with
      | none => none
      | some jsonPayload => env.parseJson jsonPayload

/-- JavaScript numeric coercion of a JSON value: numbers are themselves,
anything else goes through the environment's ToNumber (`none` = `NaN`). -/
def jsToNumber (env : TokenEnv) : Json → Option Int
  | .num n => some n
  | j => env.coerceNum j

/-- `isTokenExpired(token)`: `true` when the token fails to decode, when
the decoded value or its `exp` property is missing or falsy, and otherwise
the comparison `Date.now() >= exp * 1000` (`false` when `exp * 1000` is
`NaN`). -/
def isTokenExpired (env : TokenEnv) (now : Int) (token : String) : Bool :=
  match decodeToken env token with
  | none => true
  | some decoded =>
    if jsFalsy decoded then true
    else
      match getProp decoded "exp" with
      | none => true
      | some e =>
        if jsFalsy e then true
        else
          match jsToNumber env e with
          | none => false
          | some x => now ≥ x * 1000

/-- `isAuthenticated()` over the `localStorage` token slot: `false` when
no token is stored; when the stored token is expired it is removed and
`false` is returned; otherwise `true`.  The result pairs the returned
boolean with the token slot after the call. -/
def isAuthenticated (env : TokenEnv) (now : Int) :
    Option String → Bool × Option String
  | none => (false, none)
  | some token =>
    if isTokenExpired env now token then (false, none)
    else (true, some token)

/-! ## `lib/api.ts` — `ApiClient.request` response handling and `logout`

The session state visible to the client is the `localStorage` token slot
and the admin-status cache.  A received HTTP response is its status code,
the result of `response.json()` (`none` when the body is not JSON), and
`response.statusText`. -/

/-- Client-side session state: the stored token and the admin cache. -/
structure SessionState where
  token : Option String
  adminCache : AdminCache

/-- `ApiClient.logout()`: `removeToken()` then `clearAdminStatusCache()`. -/
def logout (_s : SessionState) : SessionState :=
  { token := none, adminCache := clearAdminStatusCache }

/-- An HTTP response as consumed by `request`. -/
structure HttpResponse where
  status : Nat
  body : Option Json
  statusText : String

/-- `response.ok`: status in the inclusive range 200–299. -/
def responseOk (r : HttpResponse) : Bool :=
  decide (200 ≤ r.status ∧ r.status ≤ 299)

/-- Outcome of `request`: a resolved JSON body or a thrown `Error`
carrying a message. -/
inductive ReqResult where
  | success (body : Option Json) : ReqResult
  | failure (message : String) : ReqResult

/-- The error object of the generic non-2xx branch:
`await response.json().catch(() => ({detail: response.statusText}))`. -/
def errBody (r : HttpResponse) : Json :=
  match r.body with
  | some j => j
  | none => Json.obj [("detail", Json.str r.statusText)]

/-- The thrown message of the generic non-2xx branch:
`error.detail || 'HTTP ' + response.status`. -/
def errorMessage (r : HttpResponse) : String :=
  match getProp (errBody r) "detail" with
  | some v => if jsFalsy v then "HTTP " ++ toString r.status else jsString v
  | none => "HTTP " ++ toString r.status

/-- `ApiClient.request` from the point the response arrives: on a 2xx the
body resolves; on a 401 the client logs out, navigates to `/login` and
throws a fixed message; on any other non-2xx it throws
`errorMessage`.  The result triples the outcome with the session state
after the call and the navigation target, if any. -/
def requestStep (r : HttpResponse) (s : SessionState) :
    ReqResult × SessionState × Option String :=
  if responseOk r then (.success r.body, s, none)
  else if r.status = 401 then
    (.failure "Session expired. Please login again.", logout s, some "/login")
  else
    (.failure (errorMessage r), s, none)

/-! ## `components/admin-route.tsx` — the two `AdminRoute` variants

Each variant is a pure render function over the component's state
(`useState` values) yielding nothing, a spinner, or the wrapped children,
plus a shared admin-check effect over the cache read and the `/auth/me`
fetch result. -/

/-- What a render of `AdminRoute` produces. -/
inductive RenderOut where
  | nothing : RenderOut
  | spinner : RenderOut
  | children : RenderOut
deriving Repr, DecidableEq

/-- State of the first `AdminRoute` variant. -/
structure AdminRouteState1 where
  mounted : Bool
  isChecking : Bool
  isAdmin : Option Bool

/-- Render of the first variant: `null` before mount, the spinner while
`isChecking || isAdmin === null`, `null` on `isAdmin === false`, else
the children. -/
def renderAdminRoute1 (s : AdminRouteState1) : RenderOut :=
  if !s.mounted then .nothing
  else if s.isChecking || s.isAdmin == none then .spinner
  else if s.isAdmin == some false then .nothing
  else .children

/-- State of the second (optimistic) `AdminRoute` variant.  Its `useState`
initializers are `isAdmin = null`, `isChecking = true`,
`showSpinner = false`. -/
structure AdminRouteState2 where
  isChecking : Bool
  isAdmin : Option Bool
  showSpinner : Bool

/-- The second variant's initial state, straight from its `useState`
initializers. -/
def adminRoute2Initial : AdminRouteState2 :=
  { isChecking := true, isAdmin := none, showSpinner := false }

/-- Render of the second variant: the spinner only when the check is
pending and `showSpinner` is set; otherwise, while pending, the children
(optimistic render); `null` on `isAdmin === false`; else the children. -/
def renderAdminRoute2 (s : AdminRouteState2) : RenderOut :=
  if (s.isChecking || s.isAdmin == none) && s.showSpinner then .spinner
  else if s.isChecking || s.isAdmin == none then .children
  else if s.isAdmin == some false then .nothing
  else .children

/-- Outcome of the admin-check effect: the state it settles, the
navigation it issues, and the cache write it performs. -/
structure AdminCheckOutcome where
  isAdmin : Option Bool
  isChecking : Bool
  redirect : Option String
  cacheWrite : Option Bool

/-- The admin-check effect shared by both variants: a cached status is
used directly (redirecting to `/compliance` when it is `false`);
otherwise `/auth/me` is awaited — on success the status is cached and a
`false` status redirects; on failure the status is set and cached `false`
and the client redirects. -/
def adminCheck (cached : Option Bool) (fetched : Except Unit Bool) :
    AdminCheckOutcome :=
  match cached with
  | some b =>
    { isAdmin := some b, isChecking := false,
      redirect := if b then none else some "/compliance", cacheWrite := none }
  | none =>
    match fetched with
    | .ok b =>
      { isAdmin := some b, isChecking := false,
        redirect := if b then none else some "/compliance",
        cacheWrite := some b }
    | .error _ =>
      { isAdmin := some false, isChecking := false,
        redirect := some "/compliance", cacheWrite := some false }

/-! ## `components/exception-dialog.tsx` — name generation and submit -/

/-- Whether a character is a hexadecimal digit. -/
def isHexDigit (c : Char) : Bool :=
  c.isDigit || ('a' ≤ c && c ≤ 'f') || ('A' ≤ c && c ≤ 'F')

/-- Value of one hexadecimal digit. -/
def hexDigitVal (c : Char) : Nat :=
  if c.isDigit then c.toNat - '0'.toNat
  else if 'a' ≤ c && c ≤ 'f' then c.toNat - 'a'.toNat + 10
  else if 'A' ≤ c && c ≤ 'F' then c.toNat - 'A'.toNat + 10
  else 0

/-- Value of a list of hexadecimal digits. -/
def hexToNat (ds : List Char) : Nat :=
  ds.foldl (fun acc c => acc * 16 + hexDigitVal c) 0

/-- Value of a list of decimal digits. -/
def digitsToNat (ds : List Char) : Nat :=
  ds.foldl (fun acc c => acc * 10 + (c.toNat - '0'.toNat)) 0

/-- JavaScript `s.trim()` (whitespace stripped from both ends). -/
def jsTrim (s : String) : String :=
  (((s.toList.dropWhile Char.isWhitespace).reverse.dropWhile
    Char.isWhitespace).reverse).asString

/-- JavaScript `parseInt(s)` with no radix argument: leading whitespace
skipped, an optional sign, then either a `0x`/`0X` hexadecimal literal or
leading decimal digits; `none` models `NaN`. -/
def jsParseInt (s : String) : Option Int :=
  let t := s.toList.dropWhile Char.isWhitespace
  let signed : Int × List Char :=
    match t with
    | '-' :: r => (-1, r)
    | '+' :: r => (1, r)
    | r => (1, r)
  let sign := signed.1
  let rest := signed.2
  let hexPrefixed : Bool :=
    match rest with
    | '0' :: c :: _ => c = 'x' || c = 'X'
    | _ => false
  if hexPrefixed then
    let digits := (rest.drop 2).takeWhile isHexDigit
    if digits.isEmpty then none
    else some (sign * hexToNat digits)
  else
    let digits := rest.takeWhile Char.isDigit
    if digits.isEmpty then none
    else some (sign * digitsToNat digits)

/-- The dialog's two exception types. -/
inductive ExcType where
  | format : ExcType
  | special : ExcType
deriving Repr, DecidableEq

/-- The name-generation effect: in `special` mode the name is the selected
special type; in `format` mode it is `{period}_{number}_day` when the
period and number are non-blank, else the empty string. -/
def genExceptionName (t : ExcType) (period number specialType : String) :
    String :=
  match t with
  | .special => specialType
  | .format =>
    if period ≠ "" ∧ number ≠ "" ∧ jsTrim number ≠ "" then
      period ++ "_" ++ number ++ "_day"
    else ""

/-- `handleSubmit` after the name-generation effect has run: in `format`
mode a blank number, a `NaN` parse, or a non-positive parse blocks the
submission (`none`); otherwise the generated name is sent to
`createException`/`updateException` (`some name`). -/
def handleSubmitException (t : ExcType) (period number specialType : String) :
    Option String :=
  let name := genExceptionName t period number specialType
  match t with
  | .format =>
    if number = "" ∨ jsTrim number = "" then none
    else
      match jsParseInt number with
      | none => none
      | some n => if n ≤ 0 then none else some name
  | .special => some name

/-- The exception-name pattern the spec states: `default`, `other`, or
`{period}_{number}_day` with the period in `{weekly, monthly, quarterly}`
and the number a non-empty digit string denoting a positive integer
(the regex `^(weekly|monthly|quarterly)_(\d+)_day$` of the dialog's
parsing code, restricted to a positive count). -/
def validExceptionName (n : String) : Bool :=
  n = "default" || n = "other" ||
  (["weekly", "monthly", "quarterly"].any fun p =>
    (p ++ "_").toList.isPrefixOf n.toList && "_day".toList.isSuffixOf n.toList &&
    (let mid := (n.drop (p.length + 1)).dropRight 4
     !(mid = "") && mid.toList.all Char.isDigit && digitsToNat mid.toList > 0))

/-! ## `app/attendance/page.tsx` — upload file validation -/

/-- JavaScript `s.lastIndexOf(c)`: the index of the last occurrence, or
`-1`. -/
def jsLastIndexOf (s : String) (c : Char) : Int :=
  match (s.toList.enum.filter (fun p => p.2 = c)).getLast? with
  | some p => (p.1 : Int)
  | none => -1

/-- JavaScript `s.substring(i)` for a possibly negative start index:
negative indices clamp to 0. -/
def jsSubstringFrom (s : String) (i : Int) : String :=
  s.drop i.toNat

/-- JavaScript `s.toLowerCase()` (ASCII range, which covers the compared
extensions). -/
def jsToLowerCase (s : String) : String :=
  (s.toList.map Char.toLower).asString

/-- The upload page's extension computation:
`name.substring(name.lastIndexOf('.')).toLowerCase()`. -/
def fileExtension (name : String) : String :=
  jsToLowerCase (jsSubstringFrom name (jsLastIndexOf name '.'))

/-- `validExtensions = ['.xlsx', '.xls']`. -/
def validExtensions : List String := [".xlsx", ".xls"]

/-- State of the attendance upload page relevant to file selection. -/
structure AttendanceState where
  file : Option String
  uploadResult : Option String

/-- `handleFileChange`: no selected file leaves the state alone; a file
with an invalid extension is rejected (toast, early return); otherwise it
becomes the selection and the previous upload result is cleared.  The
second component lists the network requests issued by the handler —
always none. -/
def handleFileChange (input : Option String) (s : AttendanceState) :
    AttendanceState × List String :=
  match input with
  | none => (s, [])
  | some name =>
    if validExtensions.contains (fileExtension name) then
      ({ file := some name, uploadResult := none }, [])
    else (s, [])

/-- `handleDrop`: identical validation over `e.dataTransfer.files[0]`. -/
def handleDrop (dropped : Option String) (s : AttendanceState) :
    AttendanceState × List String :=
  match dropped with
  | none => (s, [])
  | some name =>
    if validExtensions.contains (fileExtension name) then
      ({ file := some name, uploadResult := none }, [])
    else (s, [])

/-- The upload request `handleUpload` would issue: the selected file, if
any. -/
def handleUploadCalls (s : AttendanceState) : List String :=
  match s.file with
  | none => []
  | some f => [f]

/-! ## Page-fetch loops for filter dropdowns

The compliance page's `fetchExceptionOptions` and the employees page's
`fetchAllEmployees` both fetch page 1 with page size 200 and then loop
`for (page = 2; page <= total_pages; page++)`, concatenating the rows.
The backend is a function from page number to a response or a thrown
error. -/

/-- An exception row as returned by `/exceptions`. -/
structure ExceptionRow where
  id : Nat
  name : String

/-- One page of the `/exceptions` listing. -/
structure ExceptionsPageResponse where
  exceptions : List ExceptionRow
  total_pages : Nat

/-- The page numbers visited by the `for` loop: `2, …, total_pages`. -/
def extraPages (totalPages : Nat) : List Nat :=
  List.range' 2 (totalPages - 1)

/-- The loop body over the remaining pages, accumulating rows; a thrown
fetch error aborts the loop. -/
def fetchRestExceptions (fetch : Nat → Except Unit ExceptionsPageResponse) :
    List Nat → List ExceptionRow → Except Unit (List ExceptionRow)
  | [], acc => .ok acc
  | p :: ps, acc =>
    match fetch p with
    | .error e => .error e
    | .ok resp => fetchRestExceptions fetch ps (acc ++ resp.exceptions)

/-- Rows of all pages of the exceptions endpoint, as accumulated by
`fetchExceptionOptions` before the `catch`. -/
def fetchAllExceptions (fetch : Nat → Except Unit ExceptionsPageResponse) :
    Except Unit (List ExceptionRow) :=
  match fetch 1 with
  | .error e => .error e
  | .ok p1 => fetchRestExceptions fetch (extraPages p1.total_pages) p1.exceptions

/-- JavaScript `Array.prototype.sort()` on strings: a stable sort under
code-unit lexicographic comparison (compared here through the character
lists of the strings). -/
def sortStrings (l : List String) : List String :=
  l.mergeSort (fun a b => decide (a.toList ≤ b.toList))

/-- `fetchExceptionOptions`: on success
`['All', 'default', ...names.sort()]`; when the fetch throws, exactly
`['All', 'default']`. -/
def fetchExceptionOptions (fetch : Nat → Except Unit ExceptionsPageResponse) :
    List String :=
  match fetchAllExceptions fetch with
  | .ok rows => "All" :: "default" :: sortStrings (rows.map (fun r => r.name))
  | .error _ => ["All", "default"]

/-- An employee row as consumed by the employees page's dropdown memos. -/
structure EmployeeRow where
  employee_id : String
  vertical : Option String
  status : Option String
  exception : Option String

/-- One page of the `/employees` listing. -/
structure EmployeesPageResponse where
  employees : List EmployeeRow
  total_pages : Nat

/-- The employees page's loop body over the remaining pages. -/
def fetchRestEmployees (fetch : Nat → Except Unit EmployeesPageResponse) :
    List Nat → List EmployeeRow → Except Unit (List EmployeeRow)
  | [], acc => .ok acc
  | p :: ps, acc =>
    match fetch p with
    | .error e => .error e
    | .ok resp => fetchRestEmployees fetch ps (acc ++ resp.employees)

/-- `fetchAllEmployees`: page 1 then pages `2 … total_pages`, rows
concatenated. -/
def fetchAllEmployees (fetch : Nat → Except Unit EmployeesPageResponse) :
    Except Unit (List EmployeeRow) :=
  match fetch 1 with
  | .error e => .error e
  | .ok p1 => fetchRestEmployees fetch (extraPages p1.total_pages) p1.employees

/-! ## Backend compliance-status derivation (external to this repository) -/

/-- An attendance row, per the client's `Attendance` contract (only the
fields the aggregation reads). -/
structure AttendanceRow where
  employee_id : String
  date : String
  is_present : Nat
  hours_worked : Int

/-- Modelled from the spec: the external backend's compliance-status
derivation, implemented by no code in this repository — "`No Data` when no
attendance rows exist for the employee in that period; otherwise
`Compliant` if both day and hour thresholds are met, else
`Not Compliant`".  The two threshold tests are boolean parameters because
their exact derivation (hour-threshold rule, tie-breaks) is server-side
and unobservable from this client. -/
def complianceStatus (rows : List AttendanceRow) (dayMet hourMet : Bool) :
    String :=
  if rows.isEmpty then "No Data"
  else if dayMet && hourMet then "Compliant"
  else "Not Compliant"

/-! ## Concrete instances used by witnesses and counterexamples -/

/-- A degenerate browser environment in which every primitive throws. -/
def envAllFail : TokenEnv :=
  { atob := fun _ => none
    decodeURIComponent := fun _ => none
    parseJson := fun _ => none
    coerceNum := fun _ => none }

/-- A browser environment whose JSON parser yields a payload with
`exp = 1`. -/
def envExpOne : TokenEnv :=
  { atob := fun _ => some ""
    decodeURIComponent := fun _ => some ""
    parseJson := fun _ => some (Json.obj [("exp", Json.num 1)])
    coerceNum := fun _ => none }

/-- A 401 response carrying a JSON body with a `detail` field. -/
def resp401 : HttpResponse :=
  { status := 401
    body := some (Json.obj [("detail", Json.str "Invalid credentials")])
    statusText := "Unauthorized" }

/-- A 404 response carrying a JSON body with a `detail` field. -/
def resp404 : HttpResponse :=
  { status := 404
    body := some (Json.obj [("detail", Json.str "Employee not found")])
    statusText := "Not Found" }

/-- A session holding a token and a freshly cached admin status. -/
def sessLoggedIn : SessionState :=
  { token := some "tok", adminCache := some (true, 0) }

/-- A browser environment whose JSON parser yields a payload without an
`exp` property. -/
def envNoExp : TokenEnv :=
  { atob := fun _ => some ""
    decodeURIComponent := fun _ => some ""
    parseJson := fun _ => some (Json.obj [("sub", Json.str "u1")])
    coerceNum := fun _ => none }

/-- A two-page exceptions backend. -/
def gExc : Nat → ExceptionsPageResponse := fun p =>
  if p = 1 then { exceptions := [⟨1, "weekly_2_day"⟩, ⟨2, "default"⟩], total_pages := 2 }
  else { exceptions := [⟨3, "monthly_4_day"⟩], total_pages := 2 }

/-- A two-page employees backend. -/
def gEmp : Nat → EmployeesPageResponse := fun p =>
  if p = 1 then
    { employees := [⟨"E1", some "Tech", some "Active", none⟩], total_pages := 2 }
  else
    { employees := [⟨"E2", some "Ops", some "Active", some "weekly_2_day"⟩],
      total_pages := 2 }

/-- A backend whose every fetch throws. -/
def fetchFailExc : Nat → Except Unit ExceptionsPageResponse := fun _ => .error ()

/-! ## Claims -/

/-- C1: for every employee and compliance period, the compliance status is
"No Data" when the employee has zero attendance rows in the period, and
otherwise "Compliant" exactly when both thresholds are met and
"Not Compliant" otherwise; with zero rows the status is never "Compliant"
or "Not Compliant". -/
theorem c1_compliance_status_no_data
    (rows : List AttendanceRow) (dayMet hourMet : Bool) :
    (rows = [] → complianceStatus rows dayMet hourMet = "No Data") ∧
    (rows ≠ [] → complianceStatus rows dayMet hourMet =
      (if dayMet && hourMet then "Compliant" else "Not Compliant")) ∧
    (rows = [] → complianceStatus rows dayMet hourMet ≠ "Compliant" ∧
      complianceStatus rows dayMet hourMet ≠ "Not Compliant") := by
  refine ⟨fun h => ?_, fun h => ?_, fun h => ?_⟩
  · simp [complianceStatus, h]
  · simp [complianceStatus, h]
  · subst h
    refine ⟨?_, ?_⟩ <;> simp [complianceStatus]

/-- Witness for C1 at concrete inputs. -/
theorem c1_witness :
    complianceStatus [] true true = "No Data" ∧
    complianceStatus [⟨"E1", "2024-01-01", 1, 8⟩] true true = "Compliant" ∧
    complianceStatus [⟨"E1", "2024-01-01", 1, 8⟩] false true = "Not Compliant" := by
  refine ⟨(c1_compliance_status_no_data [] true true).1 rfl, ?_, ?_⟩
  · have h := (c1_compliance_status_no_data
      [⟨"E1", "2024-01-01", 1, 8⟩] true true).2.1 (by simp)
    simpa using h
  · have h := (c1_compliance_status_no_data
      [⟨"E1", "2024-01-01", 1, 8⟩] false true).2.1 (by simp)
    simpa using h

/-- C5: a value stored in the admin cache at time `t` is returned at any
time within five minutes, `null` is returned once more than five minutes
have passed, and after `logout` the cache read returns `null`. -/
theorem c5_admin_cache_ttl :
    (∀ (b : Bool) (t tq : Int), tq - t ≤ CACHE_DURATION →
      (getCachedAdminStatus tq (setCachedAdminStatus b t)).1 = some b) ∧
    (∀ (b : Bool) (t tq : Int), CACHE_DURATION < tq - t →
      (getCachedAdminStatus tq (setCachedAdminStatus b t)).1 = none) ∧
    (∀ (s : SessionState) (tq : Int),
      (getCachedAdminStatus tq (logout s).adminCache).1 = none) := by
  refine ⟨fun b t tq h => ?_, fun b t tq h => ?_, fun s tq => ?_⟩
  · simp [getCachedAdminStatus, setCachedAdminStatus, not_lt.mpr h]
  · simp [getCachedAdminStatus, setCachedAdminStatus, h]
  · simp [getCachedAdminStatus, logout, clearAdminStatusCache]

/-- Witness for C5: five minutes exactly is within the window, one
millisecond more is outside, and a logged-out session reads `null`. -/
theorem c5_witness :
    (getCachedAdminStatus 300000 (setCachedAdminStatus true 0)).1 = some true ∧
    (getCachedAdminStatus 300001 (setCachedAdminStatus true 0)).1 = none ∧
    (getCachedAdminStatus 0 (logout sessLoggedIn).adminCache).1 = none :=
  ⟨c5_admin_cache_ttl.1 true 0 300000 (by decide),
   c5_admin_cache_ttl.2.1 true 0 300001 (by decide),
   c5_admin_cache_ttl.2.2 sessLoggedIn 0⟩

/-- C9: the admin cache round-trips — a get immediately after a set
returns the stored boolean, and a get after a clear returns `null`. -/
theorem c9_cache_round_trip (b : Bool) (t : Int) :
    (getCachedAdminStatus t (setCachedAdminStatus b t)).1 = some b ∧
    (getCachedAdminStatus t clearAdminStatusCache).1 = none := by
  constructor
  · simp [getCachedAdminStatus, setCachedAdminStatus, CACHE_DURATION]
  · simp [getCachedAdminStatus, clearAdminStatusCache]

/-- C8: on the attendance upload page, a selected or dropped file whose
extension (substring from the last dot, lowercased) is neither `.xlsx`
nor `.xls` is rejected before any network call: the selection state is
unchanged, the handler issues no request, and the upload request set is
unaffected. -/
theorem c8_upload_extension_guard (name : String) (s : AttendanceState)
    (hbad : validExtensions.contains (fileExtension name) = false) :
    handleFileChange (some name) s = (s, []) ∧
    handleDrop (some name) s = (s, []) ∧
    handleUploadCalls (handleFileChange (some name) s).1 = handleUploadCalls s := by
  have hm : fileExtension name ∉ validExtensions := by simpa using hbad
  refine ⟨?_, ?_, ?_⟩ <;> simp [handleFileChange, handleDrop, hm]

/-- Witness for C8 at a `.csv` file. -/
theorem c8_witness :
    validExtensions.contains (fileExtension "report.csv") = false ∧
    handleFileChange (some "report.csv") { file := none, uploadResult := none } =
      ({ file := none, uploadResult := none }, []) :=
  ⟨by decide,
   (c8_upload_extension_guard "report.csv"
     { file := none, uploadResult := none } (by decide)).1⟩

/-- C10: `decodeToken` is total — every input string yields a parsed
payload or `null` — and `isTokenExpired` reports `true` for every token
that fails to decode and for every token whose decoded payload has no
`exp` property. -/
theorem c10_token_utilities (env : TokenEnv) (now : Int) (token : String) :
    (decodeToken env token = none ∨ ∃ d, decodeToken env token = some d) ∧
    (decodeToken env token = none → isTokenExpired env now token = true) ∧
    (∀ d, decodeToken env token = some d → getProp d "exp" = none →
      isTokenExpired env now token = true) := by
  refine ⟨?_, fun h => ?_, fun d hd hexp => ?_⟩
  · cases h : decodeToken env token with
    | none => exact Or.inl rfl
    | some d => exact Or.inr ⟨d, rfl⟩
  · unfold isTokenExpired
    rw [h]
  · unfold isTokenExpired
    rw [hd]
    by_cases hf : jsFalsy d = true
    · simp [hf]
    · simp [hf, hexp]

/-- Witness for C10: a token that fails to decode and a decoded payload
without `exp` are both treated as expired. -/
theorem c10_witness :
    isTokenExpired envAllFail 0 "x" = true ∧
    isTokenExpired envNoExp 0 "a.b" = true :=
  ⟨(c10_token_utilities envAllFail 0 "x").2.1 rfl,
   (c10_token_utilities envNoExp 0 "a.b").2.2
     (Json.obj [("sub", Json.str "u1")]) rfl rfl⟩

/-- C3: a stored token whose decoded payload carries a numeric `exp` with
`exp * 1000 ≤ Date.now()` makes `isAuthenticated` return `false` and
remove the token; and a 401 response makes `request` clear the token and
the admin-status cache and navigate to `/login`. -/
theorem c3_session_expiry :
    (∀ (env : TokenEnv) (now : Int) (token : String) (d : Json) (n : Int),
      decodeToken env token = some d → getProp d "exp" = some (Json.num n) →
      n * 1000 ≤ now →
      isAuthenticated env now (some token) = (false, none)) ∧
    (∀ (r : HttpResponse) (s : SessionState), r.status = 401 →
      requestStep r s = (.failure "Session expired. Please login again.",
        { token := none, adminCache := none }, some "/login")) := by
  constructor
  · intro env now token d n hdec hexp hle
    have hexpired : isTokenExpired env now token = true := by
      unfold isTokenExpired
      rw [hdec]
      have hobj : jsFalsy d = false := by
        cases d <;> simp_all [getProp, jsFalsy]
      by_cases hz : n = 0
      · simp [hobj, hexp, jsFalsy, hz]
      · have hnf : jsFalsy (Json.num n) = false := by simp [jsFalsy, hz]
        simp only [hobj, Bool.false_eq_true, if_false, hexp, hnf, jsToNumber,
          ge_iff_le, decide_eq_true_eq]
        omega
    simp [isAuthenticated, hexpired]
  · intro r s h
    have hok : responseOk r = false := by
      simp [responseOk, h]
    simp [requestStep, hok, h, logout, clearAdminStatusCache]

/-- Witness for C3: a token with `exp = 1` checked at `now = 1000` is
rejected and removed, and a concrete 401 response clears the session and
navigates to `/login`. -/
theorem c3_witness :
    isAuthenticated envExpOne 1000 (some "a.b") = (false, none) ∧
    requestStep resp401 sessLoggedIn =
      (.failure "Session expired. Please login again.",
        { token := none, adminCache := none }, some "/login") :=
  ⟨c3_session_expiry.1 envExpOne 1000 "a.b" (Json.obj [("exp", Json.num 1)])
      1 rfl rfl (by decide),
   c3_session_expiry.2 resp401 sessLoggedIn rfl⟩

/-- C2 counterexample: a 401 response whose JSON body carries a `detail`
field is thrown with the fixed message "Session expired. Please login
again.", not with the `detail` string — so the claim does not hold for
every non-2xx status. -/
theorem c2_counterexample :
    requestStep resp401 sessLoggedIn =
      (.failure "Session expired. Please login again.",
        { token := none, adminCache := none }, some "/login") ∧
    getProp (errBody resp401) "detail" = some (Json.str "Invalid credentials") ∧
    "Session expired. Please login again." ≠ "Invalid credentials" :=
  ⟨rfl, rfl, by decide⟩

/-- C2 amended: every non-2xx response makes `request` throw and never
resolve; for statuses other than 401 the message is the body's `detail`
when present and truthy (falling back to `HTTP <status>`, with the status
text standing in as `detail` when the body is not JSON), while a 401
instead throws the fixed session-expired message after clearing the
session and navigating to `/login`. -/
theorem c2_amended_request_errors (r : HttpResponse) (s : SessionState)
    (hnot : responseOk r = false) :
    (∀ b, (requestStep r s).1 ≠ ReqResult.success b) ∧
    (r.status = 401 → requestStep r s =
      (.failure "Session expired. Please login again.", logout s, some "/login")) ∧
    (r.status ≠ 401 → requestStep r s = (.failure (errorMessage r), s, none)) ∧
    (∀ v, getProp (errBody r) "detail" = some v → jsFalsy v = false →
      errorMessage r = jsString v) ∧
    (getProp (errBody r) "detail" = none →
      errorMessage r = "HTTP " ++ toString r.status) := by
  refine ⟨fun b => ?_, fun h401 => ?_, fun hne => ?_, fun v hv hf => ?_,
    fun hnone => ?_⟩
  · by_cases h : r.status = 401 <;> simp [requestStep, hnot, h]
  · simp [requestStep, hnot, h401]
  · simp [requestStep, hnot, hne]
  · simp [errorMessage, hv, hf]
  · simp [errorMessage, hnone]

/-- Witness for C2 at a 404 response with a `detail` body. -/
theorem c2_witness :
    responseOk resp404 = false ∧
    requestStep resp404 sessLoggedIn =
      (.failure (errorMessage resp404), sessLoggedIn, none) ∧
    errorMessage resp404 = "Employee not found" :=
  ⟨rfl,
   (c2_amended_request_errors resp404 sessLoggedIn rfl).2.2.1 (by decide),
   (c2_amended_request_errors resp404 sessLoggedIn rfl).2.2.2.1
     (Json.str "Employee not found") rfl rfl⟩

/-- C4 counterexample: the second `AdminRoute` variant, in its initial
state (check pending, spinner not yet shown), renders the wrapped
children although the admin status is not established as true. -/
theorem c4_counterexample :
    renderAdminRoute2 adminRoute2Initial = RenderOut.children ∧
    adminRoute2Initial.isAdmin ≠ some true :=
  ⟨rfl, by simp [adminRoute2Initial]⟩

/-- C4 amended: the first `AdminRoute` variant renders its children only
when the admin status in its state is true; the second variant renders
children optimistically while the check is pending (in particular in its
initial state) and otherwise only when the status is true; once the check
has settled a false status both variants render nothing, and the
admin-check effect redirects to `/compliance` whenever it settles a false
status. -/
theorem c4_amended_admin_gating :
    (∀ s : AdminRouteState1, renderAdminRoute1 s = RenderOut.children →
      s.isAdmin = some true) ∧
    (∀ s : AdminRouteState2, renderAdminRoute2 s = RenderOut.children →
      s.isAdmin = some true ∨ s.isChecking = true ∨ s.isAdmin = none) ∧
    (renderAdminRoute2 adminRoute2Initial = RenderOut.children) ∧
    (∀ s : AdminRouteState1, s.mounted = true → s.isChecking = false →
      s.isAdmin = some false → renderAdminRoute1 s = RenderOut.nothing) ∧
    (∀ s : AdminRouteState2, s.isChecking = false → s.isAdmin = some false →
      renderAdminRoute2 s = RenderOut.nothing) ∧
    (∀ (cached : Option Bool) (fetched : Except Unit Bool),
      (adminCheck cached fetched).isAdmin = some false →
      (adminCheck cached fetched).redirect = some "/compliance") := by
  refine ⟨?_, ?_, rfl, ?_, ?_, ?_⟩
  · rintro ⟨m, c, a⟩ h
    cases m <;> cases c <;> rcases a with _ | (_ | _) <;>
      simp_all [renderAdminRoute1]
  · rintro ⟨c, a, sp⟩ h
    cases c <;> rcases a with _ | (_ | _) <;> cases sp <;>
      simp_all [renderAdminRoute2]
  · rintro ⟨m, c, a⟩ hm hc ha
    subst hm hc ha
    simp [renderAdminRoute1]
  · rintro ⟨c, a, sp⟩ hc ha
    subst hc ha
    cases sp <;> simp [renderAdminRoute2]
  · rintro (_ | b) fetched h
    · rcases fetched with _ | b
      · simp [adminCheck]
      · cases b <;> simp_all [adminCheck]
    · cases b <;> simp_all [adminCheck]

/-- Witness for C4: the first variant rendering children forces a true
status, a settled false status renders nothing in both variants, and a
failed check redirects. -/
theorem c4_witness :
    ((⟨true, false, some true⟩ : AdminRouteState1).isAdmin = some true) ∧
    renderAdminRoute1 ⟨true, false, some false⟩ = RenderOut.nothing ∧
    renderAdminRoute2 ⟨false, some false, false⟩ = RenderOut.nothing ∧
    (adminCheck none (.error ())).redirect = some "/compliance" :=
  ⟨c4_amended_admin_gating.1 ⟨true, false, some true⟩ rfl,
   c4_amended_admin_gating.2.2.2.1 ⟨true, false, some false⟩ rfl rfl rfl,
   c4_amended_admin_gating.2.2.2.2.1 ⟨false, some false, false⟩ rfl rfl,
   c4_amended_admin_gating.2.2.2.2.2 none (.error ()) rfl⟩

/-- C6 counterexample: with the number field `"2x"`, `parseInt` yields 2,
validation passes, and the dialog submits `weekly_2x_day` — a name
matching neither `default`/`other` nor the
`{period}_{number}_day` pattern with a digit-string number — so the
submission is not blocked client-side. -/
theorem c6_counterexample :
    handleSubmitException .format "weekly" "2x" "default" =
      some "weekly_2x_day" ∧
    validExceptionName "weekly_2x_day" = false :=
  ⟨rfl, by decide⟩

/-- C6 amended: every name the dialog submits is `default`, `other`, or
`{period}_{number}_day` for the raw number string, where `parseInt` of
that string is a positive integer (digit-string names are not guaranteed,
since `parseInt` ignores trailing garbage); and inputs whose number fails
to parse, or parses non-positive, are blocked with no network call. -/
theorem c6_amended_submit_names (t : ExcType)
    (period number specialType : String)
    (hp : period ∈ (["weekly", "monthly", "quarterly"] : List String))
    (hs : specialType ∈ (["default", "other"] : List String)) :
    (∀ n, handleSubmitException t period number specialType = some n →
      n = "default" ∨ n = "other" ∨
      ∃ k, jsParseInt number = some k ∧ 0 < k ∧
        n = period ++ "_" ++ number ++ "_day") ∧
    (jsParseInt number = none →
      handleSubmitException .format period number specialType = none) ∧
    (∀ k, jsParseInt number = some k → k ≤ 0 →
      handleSubmitException .format period number specialType = none) := by
  simp only [List.mem_cons, List.not_mem_nil, or_false] at hp hs
  refine ⟨fun n hn => ?_, fun hnan => ?_, fun k hk hk0 => ?_⟩
  · cases t with
    | special =>
      simp only [handleSubmitException, genExceptionName,
        Option.some.injEq] at hn
      rcases hs with h | h <;> subst h <;> subst hn
      · exact Or.inl rfl
      · exact Or.inr (Or.inl rfl)
    | format =>
      simp only [handleSubmitException] at hn
      by_cases hb : (number = "" ∨ jsTrim number = "")
      · simp [hb] at hn
      · rw [if_neg hb] at hn
        cases hj : jsParseInt number with
        | none => rw [hj] at hn; exact absurd hn (by simp)
        | some k =>
          rw [hj] at hn
          by_cases hkk : k ≤ 0
          · simp [hkk] at hn
          · simp only [hkk, if_false, Option.some.injEq] at hn
            have hperiod : period ≠ "" := by
              rcases hp with h | h | h <;> subst h <;> decide
            push_neg at hb
            have hname : genExceptionName .format period number specialType =
                period ++ "_" ++ number ++ "_day" := by
              unfold genExceptionName
              rw [if_pos ⟨hperiod, hb.1, hb.2⟩]
            refine Or.inr (Or.inr ⟨k, rfl, by omega, ?_⟩)
            rw [← hn, hname]
  · simp only [handleSubmitException]
    by_cases hb : (number = "" ∨ jsTrim number = "")
    · rw [if_pos hb]
    · rw [if_neg hb, hnan]
  · simp only [handleSubmitException]
    by_cases hb : (number = "" ∨ jsTrim number = "")
    · rw [if_pos hb]
    · rw [if_neg hb, hk]
      simp [hk0]

/-- Witness for C6: the number `"4"` in monthly format submits the
pattern-conformant name `monthly_4_day`. -/
theorem c6_witness :
    ("monthly" ∈ (["weekly", "monthly", "quarterly"] : List String)) ∧
    ("monthly_4_day" = "default" ∨ "monthly_4_day" = "other" ∨
      ∃ k, jsParseInt "4" = some k ∧ 0 < k ∧
        "monthly_4_day" = "monthly" ++ "_" ++ "4" ++ "_day") :=
  ⟨by decide,
   (c6_amended_submit_names .format "monthly" "4" "default" (by decide)
     (by decide)).1 "monthly_4_day" rfl⟩

/-- The exceptions loop over an always-succeeding backend accumulates the
rows of the visited pages in order. -/
theorem fetchRestExceptions_ok (g : Nat → ExceptionsPageResponse)
    (ps : List Nat) (acc : List ExceptionRow) :
    fetchRestExceptions (fun p => .ok (g p)) ps acc =
      .ok (acc ++ (ps.map (fun p => (g p).exceptions)).flatten) := by
  induction ps generalizing acc with
  | nil => simp [fetchRestExceptions]
  | cons p ps ih => simp [fetchRestExceptions, ih, List.append_assoc]

/-- The employees loop over an always-succeeding backend accumulates the
rows of the visited pages in order. -/
theorem fetchRestEmployees_ok (g : Nat → EmployeesPageResponse)
    (ps : List Nat) (acc : List EmployeeRow) :
    fetchRestEmployees (fun p => .ok (g p)) ps acc =
      .ok (acc ++ (ps.map (fun p => (g p).employees)).flatten) := by
  induction ps generalizing acc with
  | nil => simp [fetchRestEmployees]
  | cons p ps ih => simp [fetchRestEmployees, ih, List.append_assoc]

/-- `sortStrings` output is sorted under the code-unit order. -/
theorem sortStrings_sorted (l : List String) :
    (sortStrings l).Pairwise (fun a b => a.toList ≤ b.toList) := by
  have h := @List.sorted_mergeSort String
    (fun a b => decide (a.toList ≤ b.toList))
    (fun a b c hab hbc => by
      simp only [decide_eq_true_eq] at *
      exact le_trans hab hbc)
    (fun a b => by
      simp only [Bool.or_eq_true, decide_eq_true_eq]
      exact le_total _ _)
    l
  simpa using h

/-- `sortStrings` output is a permutation of its input. -/
theorem sortStrings_perm (l : List String) : (sortStrings l).Perm l :=
  List.mergeSort_perm l _

/-- C7: over a backend whose first exceptions page reports `total_pages`,
the option list is built from pages 1 through `total_pages` and equals
`'All', 'default'` followed by the names of all fetched exceptions in
sorted order (`sortStrings` being a sorted permutation); when the fetch
fails the list is exactly `['All', 'default']`; and the employees page
accumulates pages 1 through `total_pages` by the same loop. -/
theorem c7_filter_options_pagination :
    (∀ g : Nat → ExceptionsPageResponse,
      fetchExceptionOptions (fun p => .ok (g p)) =
        "All" :: "default" :: sortStrings
          (((g 1).exceptions ++
            ((extraPages (g 1).total_pages).map
              (fun p => (g p).exceptions)).flatten).map (fun r => r.name))) ∧
    (∀ l : List String,
      (sortStrings l).Pairwise (fun a b => a.toList ≤ b.toList) ∧
      (sortStrings l).Perm l) ∧
    (∀ fetch, (∃ e, fetchAllExceptions fetch = .error e) →
      fetchExceptionOptions fetch = ["All", "default"]) ∧
    (∀ g : Nat → EmployeesPageResponse,
      fetchAllEmployees (fun p => .ok (g p)) =
        .ok ((g 1).employees ++
          ((extraPages (g 1).total_pages).map
            (fun p => (g p).employees)).flatten)) := by
  refine ⟨fun g => ?_, fun l => ⟨sortStrings_sorted l, sortStrings_perm l⟩,
    fun fetch h => ?_, fun g => ?_⟩
  · simp [fetchExceptionOptions, fetchAllExceptions, fetchRestExceptions_ok]
  · rcases h with ⟨e, he⟩
    simp [fetchExceptionOptions, he]
  · simp [fetchAllEmployees, fetchRestEmployees_ok]

/-- Witness for C7 at concrete two-page backends and an always-failing
backend. -/
theorem c7_witness :
    fetchExceptionOptions (fun p => .ok (gExc p)) =
      "All" :: "default" ::
        sortStrings ["weekly_2_day", "default", "monthly_4_day"] ∧
    fetchExceptionOptions fetchFailExc = ["All", "default"] ∧
    fetchAllEmployees (fun p => .ok (gEmp p)) =
      .ok [⟨"E1", some "Tech", some "Active", none⟩,
        ⟨"E2", some "Ops", some "Active", some "weekly_2_day"⟩] :=
  ⟨c7_filter_options_pagination.1 gExc,
   c7_filter_options_pagination.2.2.1 fetchFailExc ⟨(), rfl⟩,
   c7_filter_options_pagination.2.2.2 gEmp⟩

end RTrack
